import Mathlib

/-!
Verification of the post-processing and scoring core of the security-event
analysis pipeline: the attack-stage state machine, the confidence and
severity rule engines, the defensive-action rule engine, the ML score
clamping/fallback logic, and the case-creation/escalation policy.

Machine floats of the source are modelled as rationals (`ℚ`); Python dicts
with fixed key sets are modelled as association lists or records; Python
sets of strings are modelled as duplicate-free lists built by guarded
insertion, compared up to permutation.
-/

namespace Spec2Proof

/-! ### Embedding of `src/rag_engine.py` -/

/-- Embeds `MITRE_STAGE_MAP` from `src/rag_engine.py`: the static table
mapping technique identifiers to lifecycle stages. -/
def MITRE_STAGE_MAP : List (String × List String) := [
  ("T1078", ["Initial Access", "Persistence"]),
  ("T1190", ["Initial Access"]),
  ("T1059", ["Execution"]),
  ("T1105", ["Command & Control"]),
  ("T1547", ["Persistence"]),
  ("T1021", ["Lateral Movement"]),
  ("T1003", ["Credential Access", "Privilege Escalation"]),
  ("T1055", ["Privilege Escalation", "Defense Evasion"]),
  ("T1486", ["Impact"]),
  ("T1562", ["Defense Evasion"]),
  ("T1041", ["Exfiltration"]),
  ("T1071", ["Command & Control"]),
  ("T1059.001", ["Execution"]),
  ("T1098", ["Persistence", "Privilege Escalation"]),
  ("T1046", ["Discovery"]),
  ("T1083", ["Discovery"])]

/-- Embeds `ATTACK_STAGE_ORDER` from `src/rag_engine.py`: the 12 canonical
lifecycle stages in order. -/
def ATTACK_STAGE_ORDER : List String := [
  "Initial Access",
  "Execution",
  "Persistence",
  "Privilege Escalation",
  "Defense Evasion",
  "Credential Access",
  "Discovery",
  "Lateral Movement",
  "Collection",
  "Command & Control",
  "Exfiltration",
  "Impact"]

/-- Embeds Python `tech.split(".")[0]`: the prefix of the string before the
first dot. -/
def baseTech (tech : String) : String :=
  String.mk (tech.data.takeWhile (fun c => c ≠ '.'))

/-- Embeds the per-technique lookup of `analyze_attack_progression`
(`src/rag_engine.py` lines 61-67): look the id up in `MITRE_STAGE_MAP`
(default `[]`); if the result is empty and the id contains a dot, retry
with the base id (the substring before the first dot). -/
def mappedStagesFor (tech : String) : List String :=
  let mapped := (MITRE_STAGE_MAP.lookup tech).getD []
  if mapped.isEmpty && tech.data.contains '.' then
    (MITRE_STAGE_MAP.lookup (baseTech tech)).getD []
  else mapped

/-- The final value of `stage_status[stage]` after the marking loop of
`analyze_attack_progression`: true iff some technique maps to `stage`. -/
def stageReached (techniques : List String) (stage : String) : Bool :=
  techniques.any (fun t => (mappedStagesFor t).contains stage)

/-- The `stage_status` dict after the marking loop, as an association list
over the canonical stage order (Python dicts preserve insertion order). -/
def rawTimeline (techniques : List String) : List (String × Bool) :=
  ATTACK_STAGE_ORDER.map (fun s => (s, stageReached techniques s))

/-- Embeds `reached_indices` of `analyze_attack_progression`: the indices
of the canonical stages whose status flag is true. -/
def reachedIndices (techniques : List String) : List Nat :=
  (List.range ATTACK_STAGE_ORDER.length).filter
    (fun i => stageReached techniques (ATTACK_STAGE_ORDER.getD i ""))

/-- Embeds the dict assignment `stage_status[stage] = True` on the
association-list representation of the timeline. -/
def forceStage (tl : List (String × Bool)) (stage : String) : List (String × Bool) :=
  tl.map (fun p => if p.1 = stage then (p.1, true) else p)

/-- Embeds `analyze_attack_progression` from `src/rag_engine.py` lines
54-90: returns the stage-status timeline, the current (furthest reached)
stage and the predicted next stage. -/
def analyze_attack_progression (techniques : List String) :
    List (String × Bool) × String × String :=
  let idxs := reachedIndices techniques
  let reached_index := if idxs.isEmpty then 0 else idxs.foldl max 0
  let tl :=
    if idxs.isEmpty then
      forceStage (rawTimeline techniques) (ATTACK_STAGE_ORDER.getD 0 "")
    else rawTimeline techniques
  let current_stage := ATTACK_STAGE_ORDER.getD reached_index ""
  let next_stage :=
    if reached_index + 1 < ATTACK_STAGE_ORDER.length then
      ATTACK_STAGE_ORDER.getD (reached_index + 1) ""
    else "Attack Objective Achieved"
  (tl, current_stage, next_stage)

/-- Embeds `calculate_confidence` from `src/rag_engine.py` lines 92-109.
Scores are modelled as rationals. -/
def calculate_confidence (scores : List ℚ) : String × String :=
  if scores.isEmpty then
    ("Low", "No relevant context found in knowledge base.")
  else
    let avg : ℚ := scores.sum / (scores.length : ℚ)
    if avg > 65/100 then
      ("High", "Strong match with known attack patterns and CVEs.")
    else if avg > 45/100 then
      ("Medium", "Partial match with threat intelligence.")
    else
      ("Low", "Limited supporting evidence from knowledge base.")

/-- Embeds the `late_stages` set of `determine_severity`. -/
def late_stages : List String :=
  ["Lateral Movement", "Command & Control", "Exfiltration", "Impact"]

/-- Embeds the `mid_stages` set of `determine_severity`. -/
def mid_stages : List String :=
  ["Persistence", "Privilege Escalation", "Defense Evasion",
   "Credential Access", "Collection", "Discovery"]

/-- Embeds `determine_severity` from `src/rag_engine.py` lines 111-132. -/
def determine_severity (current_stage confidence_level : String) : String :=
  if late_stages.contains current_stage then
    if (["High", "Medium"] : List String).contains confidence_level then
      "Critical"
    else "High"
  else if mid_stages.contains current_stage then
    if confidence_level = "High" then "High" else "Medium"
  else
    if confidence_level = "High" then "Medium" else "Low"

/-! ### Embedding of `src/defensive_logic.py` -/

/-- Whether the first list of characters is a prefix of the second,
computed character by character. -/
def isPrefixList : List Char → List Char → Bool
  | [], _ => true
  | _ :: _, [] => false
  | a :: as, b :: bs => a = b && isPrefixList as bs

/-- Embeds Python substring containment `needle in hay` on the character
lists of the two strings. -/
def containsSub (needle : List Char) : List Char → Bool
  | [] => isPrefixList needle []
  | c :: rest => isPrefixList needle (c :: rest) || containsSub needle rest

/-- Embeds `actions.add(a)` on a Python set, modelled as a duplicate-free
list: append `a` unless already present. -/
def addAction (acts : List String) (a : String) : List String :=
  if acts.contains a then acts else acts ++ [a]

/-- The severity-based rules of `generate_defense_actions`
(`src/defensive_logic.py` lines 7-18). -/
def severityActions (severity : String) (acts : List String) : List String :=
  if severity = "Critical" then
    addAction (addAction (addAction acts
      "Isolate the affected host from the network immediately.")
      "Initiate full incident response protocol.")
      "Block all outbound traffic from the source IP."
  else if severity = "High" then
    addAction (addAction (addAction acts
      "Quarantine the affected system.")
      "Review firewall logs for suspicious connections.")
      "Reset credentials for involved accounts."
  else if severity = "Medium" then
    addAction (addAction acts
      "Monitor the host for further suspicious activity.")
      "Run a full antivirus scan on the endpoint."
  else acts

/-- The body of the per-technique loop of `generate_defense_actions`
(`src/defensive_logic.py` lines 21-33); `"T1078" in tech` is Python
substring containment. -/
def techActions (acc : List String) (tech : String) : List String :=
  let acc :=
    if containsSub "T1078".data tech.data then
      addAction (addAction acc
        "Force password reset for all affected users.")
        "Audit authentication logs for unauthorized access."
    else acc
  let acc :=
    if containsSub "T1190".data tech.data then
      addAction (addAction acc
        "Patch the vulnerable application immediately.")
        "Check web server logs for exploitation attempts."
    else acc
  let acc :=
    if containsSub "T1059".data tech.data then
      addAction (addAction acc
        "Disable PowerShell/CMD execution for non-admin users.")
        "Review script execution history."
    else acc
  if containsSub "T1021".data tech.data then
    addAction (addAction acc
      "Restrict SMB/RDP access between workstations.")
      "Implement network segmentation to contain spread."
  else acc

/-- The body of the per-anomaly loop of `generate_defense_actions`
(`src/defensive_logic.py` lines 36-42); matching is case-insensitive
substring containment. -/
def anomalyActions (acc : List String) (anomaly : String) : List String :=
  let low := anomaly.data.map Char.toLower
  let acc :=
    if containsSub "port scan".data low then
      addAction acc
        "Block the scanning source IP at the perimeter firewall."
    else acc
  if containsSub "data exfiltration".data low then
    addAction (addAction acc
      "Inspect outbound traffic for sensitive data patterns.")
      "Revoke API keys if application data is involved."
  else acc

/-- The action set accumulated by `generate_defense_actions` before the
generic fallback: severity rules, then the technique loop, then the
anomaly loop (`if anomalies:` skips the loop for `None` and for an empty
list, both falsy in Python). -/
def preActions (severity : String) (techniques : List String)
    (anomalies : Option (List String)) : List String :=
  let acts := severityActions severity []
  let acts := techniques.foldl techActions acts
  match anomalies with
  | none => acts
  | some l => if l.isEmpty then acts else l.foldl anomalyActions acts

/-- Embeds `generate_defense_actions` from `src/defensive_logic.py`.
The Python set of actions is modelled as a duplicate-free list built by
`addAction`; the returned `list(actions)` has unspecified order in Python,
so callers compare results as sets. -/
def generate_defense_actions (severity : String) (techniques : List String)
    (anomalies : Option (List String)) : List String :=
  if (preActions severity techniques anomalies).isEmpty then
    addAction (addAction (preActions severity techniques anomalies)
      "Conduct a manual investigation of the event context.")
      "Document findings in the incident management system."
  else preActions severity techniques anomalies

/-! ### Embedding of `src/ml_engine.py`

The sklearn estimators themselves (RandomForestRegressor, IsolationForest)
are opaque trained artifacts; they are modelled as abstract functions from
feature vectors to a raw score, returning `Except` to model a raised
exception during prediction. Everything around them — feature extraction,
availability fallback, exception fallback, clamping and rounding — is
embedded from the source. -/

/-- An analysis result dict as consumed by the ML engine: the fields read
via `analysis.get(...)`, with the dict-absent defaults applied by the
record's consumers. -/
structure Analysis where
  attack_explanation : String
  likely_mitre_techniques : List String
  anomalies : List String
  retrieval_scores : List ℚ
  severity_rating : String

/-- Splits a character list at every character that is neither a digit nor
a dot (modelling word boundaries of the IPv4 regex in
`RiskPredictor.extract_features`). -/
def splitNonIP : List Char → List (List Char)
  | [] => [[]]
  | c :: rest =>
    let r := splitNonIP rest
    if c.isDigit || c = '.' then
      (c :: r.headD []) :: r.tail
    else [] :: r

/-- Whether a token has the IPv4 shape of the regex in
`RiskPredictor.extract_features`: four runs of 1 to 3 digits separated by
dots. -/
def isIPv4Token (tok : List Char) : Bool :=
  let parts := tok.foldr
    (fun c (acc : List (List Char)) =>
      if c = '.' then [] :: acc
      else (c :: acc.headD []) :: acc.tail) [[]]
  parts.length = 4 &&
    parts.all (fun p => decide (1 ≤ p.length) && decide (p.length ≤ 3) &&
      p.all Char.isDigit)

/-- Models `len(set(re.findall(ipv4_pattern, text)))` from
`RiskPredictor.extract_features`: the number of distinct IPv4-looking
substrings of the text (tokenization on non-digit, non-dot characters
stands in for the regex word boundaries). -/
def countIPv4 (text : String) : Nat :=
  (((splitNonIP text.data).filter isIPv4Token).dedup).length

/-- Embeds the severity→score table of `RiskPredictor.extract_features`
(`severity_map` with `.get(…, 40)`). -/
def riskSeverityScore (s : String) : ℚ :=
  if s = "Critical" then 95
  else if s = "High" then 75
  else if s = "Medium" then 50
  else if s = "Low" then 20
  else 40

/-- Embeds `RiskPredictor.extract_features` from `src/ml_engine.py` lines
68-94: the fixed-order 5-feature vector. -/
def extract_features (a : Analysis) : List ℚ :=
  let external_ips : ℚ := countIPv4 a.attack_explanation
  let mitre_count : ℚ := a.likely_mitre_techniques.length
  let anomaly_score : ℚ :=
    if a.anomalies.isEmpty then 20
    else min ((a.anomalies.length : ℚ) * 25) 100
  let ioc_score := riskSeverityScore a.severity_rating
  let avg_retrieval : ℚ :=
    if a.retrieval_scores.isEmpty then 1/2
    else a.retrieval_scores.sum / (a.retrieval_scores.length : ℚ)
  [external_ips, mitre_count, anomaly_score, ioc_score, avg_retrieval * 30]

/-- Embeds Python `round(x, 1)` on rationals. Python rounds half to even
while `round` here rounds half up; the two agree except at exact ties,
and every property proved below is insensitive to the tie rule. -/
def round1 (x : ℚ) : ℚ := (round (10 * x) : ℤ) / 10

/-- The trained regression estimator of `RiskPredictor`, abstractly: a
function from the feature vector to a raw predicted score, where `error`
models an exception raised during prediction. -/
def RiskModel : Type := List ℚ → Except String ℚ

/-- Embeds `RiskPredictor.predict` from `src/ml_engine.py` lines 96-108:
`none` models `self.model` being unset (sklearn unavailable), giving the
50.0 default; a prediction exception is caught and also gives 50.0;
otherwise the raw score is clamped to [0, 100] and rounded to one
decimal. -/
def predict (model : Option RiskModel) (a : Analysis) : ℚ :=
  match model with
  | none => 50
  | some m =>
    match m (extract_features a) with
    | Except.error _ => 50
    | Except.ok score => round1 (max 0 (min 100 score))

/-- Embeds the severity→score table of
`BehaviorProfiler._extract_behavior_features`. -/
def behaviorSeverityScore (s : String) : ℚ :=
  if s = "Critical" then 90
  else if s = "High" then 70
  else if s = "Medium" then 45
  else if s = "Low" then 15
  else 30

/-- Embeds `BehaviorProfiler._extract_behavior_features` from
`src/ml_engine.py` lines 150-166: the fixed-order 4-feature vector. -/
def extract_behavior_features (a : Analysis) : List ℚ :=
  let techniques_count : ℚ := a.likely_mitre_techniques.length
  let avg_score : ℚ :=
    if a.retrieval_scores.isEmpty then 1/2
    else a.retrieval_scores.sum / (a.retrieval_scores.length : ℚ)
  let events_per_min := avg_score * 15
  let anomaly_indicators : ℚ :=
    if a.anomalies.isEmpty then 10 else (a.anomalies.length : ℚ) * 20
  let ioc_score := behaviorSeverityScore a.severity_rating
  [techniques_count, events_per_min, anomaly_indicators, ioc_score]

/-- The trained isolation estimator of `BehaviorProfiler`, abstractly:
`decision` models `decision_function` on one feature vector (`error` is a
raised exception), `refit` models `fit` on an observation matrix,
producing the retrained estimator or raising. -/
inductive ProfilerModel where
  | mk : (List ℚ → Except String ℚ) →
         (List (List ℚ) → Except String ProfilerModel) → ProfilerModel

/-- The `decision_function` of an abstract profiler estimator. -/
def ProfilerModel.decision : ProfilerModel → List ℚ → Except String ℚ
  | mk d _ => d

/-- The `fit` operation of an abstract profiler estimator. -/
def ProfilerModel.refit : ProfilerModel → List (List ℚ) → Except String ProfilerModel
  | mk _ r => r

/-- The mutable state of a `BehaviorProfiler` instance: the (possibly
absent) fitted model, the accumulated observations, the observation
counter and the retrain interval. -/
structure ProfilerState where
  model : Option ProfilerModel
  observations : List (List ℚ)
  observation_count : Nat
  retrain_interval : Nat

/-- Embeds `observations[-100:]`: the last 100 entries. -/
def lastObservations (l : List (List ℚ)) : List (List ℚ) :=
  l.drop (l.length - 100)

/-- Embeds `BehaviorProfiler.update_and_score` from `src/ml_engine.py`
lines 168-197 together with `_retrain` (lines 199-208): returns the
anomaly score and the updated profiler state. With no model the 25.0
default is returned and the state is untouched; a `decision_function`
exception is caught after the observation was already appended; the score
is `round(clip(50 - raw*50, 0, 100), 1)`; every `retrain_interval`-th call
with at least 20 accumulated observations the model is refit on the last
100 observations, a refit exception keeping the prior model. -/
def update_and_score (st : ProfilerState) (a : Analysis) : ℚ × ProfilerState :=
  match st.model with
  | none => (25, st)
  | some m =>
    let features := extract_behavior_features a
    let obs := st.observations ++ [features]
    let cnt := st.observation_count + 1
    let st1 := { st with observations := obs, observation_count := cnt }
    match m.decision features with
    | Except.error _ => (25, st1)
    | Except.ok raw =>
      let anomaly_score := round1 (max 0 (min 100 (50 - raw * 50)))
      let st2 :=
        if cnt % st.retrain_interval = 0 ∧ 20 ≤ obs.length then
          match m.refit (lastObservations obs) with
          | Except.ok m2 => { st1 with model := some m2 }
          | Except.error _ => st1
        else st1
      (anomaly_score, st2)

/-! ### Embedding of `src/case_manager.py` -/

/-- A persisted case record as built by `create_case` in
`src/case_manager.py`. -/
structure Case where
  case_id : String
  status : String
  created_at : String
  incident_summary : String
  severity : String
  ml_risk_score : ℚ
  mitre_techniques : List String
  recommended_actions : List String
deriving DecidableEq

/-- The request payload consumed by `create_case`: each field is optional,
matching `data.get(key, default)` on the Python dict. -/
structure CaseInput where
  incident_summary : Option String
  severity : Option String
  ml_risk_score : Option ℚ
  mitre_techniques : Option (List String)
  recommended_actions : Option (List String)

/-- Embeds `create_case` from `src/case_manager.py` lines 42-65. The call
`random.randint(1000, 9999)` is modelled by the explicit argument `rid`
(the drawn integer), and `datetime.now().strftime(...)` by the explicit
argument `now`. Returns the new case and the updated persisted store
(`cases + [new_case]`, as written by `_write_cases`). -/
def create_case (cases : List Case) (data : CaseInput) (rid : Nat)
    (now : String) : Case × List Case :=
  let case_id := "CASE-" ++ toString rid
  let new_case : Case := {
    case_id := case_id,
    status := "Open",
    created_at := now,
    incident_summary := data.incident_summary.getD "N/A",
    severity := data.severity.getD "Unknown",
    ml_risk_score := data.ml_risk_score.getD 0,
    mitre_techniques := data.mitre_techniques.getD [],
    recommended_actions := data.recommended_actions.getD [] }
  (new_case, cases ++ [new_case])

/-! ### Escalation policy -/

/-- Modelled from the spec: the escalation decision of §4.7 has no
implementation under `src/` (the threshold logic lives outside the
provided source files); per the spec, escalate when
`risk_score > 70 OR anomaly_score > 70 OR has_malicious_indicator`. -/
def should_escalate (risk_score anomaly_score : ℚ)
    (has_malicious_indicator : Bool) : Bool :=
  decide (risk_score > 70) || decide (anomaly_score > 70) ||
    has_malicious_indicator

/-! ### Reference definitions used by the theorems below -/

/-- Reference transcription of the severity decision table as the spec
words it (§4.3): late tier → Critical if confidence High or Medium else
High; mid tier → High if confidence High else Medium; early tier → Medium
if confidence High else Low. Compared against `determine_severity`. -/
def severity_table_spec (stage confidence : String) : String :=
  if stage = "Lateral Movement" ∨ stage = "Command & Control" ∨
      stage = "Exfiltration" ∨ stage = "Impact" then
    if confidence = "High" ∨ confidence = "Medium" then "Critical" else "High"
  else if stage = "Persistence" ∨ stage = "Privilege Escalation" ∨
      stage = "Defense Evasion" ∨ stage = "Credential Access" ∨
      stage = "Collection" ∨ stage = "Discovery" then
    if confidence = "High" then "High" else "Medium"
  else
    if confidence = "High" then "Medium" else "Low"

/-- Numeric rank of a confidence level, for stating monotonicity:
Low = 0, Medium = 1, High = 2. -/
def confRank (level : String) : Nat :=
  if level = "High" then 2 else if level = "Medium" then 1 else 0

/-- A rational is representable with one decimal place. -/
def isOneDecimal (x : ℚ) : Prop := ∃ n : ℤ, x = n / 10

/-- A 201-character incident summary, exceeding the 200-character
truncation limit the spec prescribes. -/
def longSummary : String := String.mk (List.replicate 201 'a')

/-- A risk estimator whose prediction always raises, modelling a
prediction exception inside `RiskPredictor.predict`. -/
def badRisk : RiskModel := fun _ => Except.error "prediction failed"

/-- A profiler estimator whose `decision_function` and `fit` always
raise. -/
def badProfiler : ProfilerModel :=
  ProfilerModel.mk (fun _ => Except.error "scoring failed")
    (fun _ => Except.error "fit failed")

/-- An analysis record with every list empty, as produced for an event
with no techniques, anomalies or retrieved context. -/
def emptyAnalysis : Analysis :=
  { attack_explanation := ""
    likely_mitre_techniques := []
    anomalies := []
    retrieval_scores := []
    severity_rating := "" }

/-- A freshly constructed profiler state holding the always-raising
estimator, with the default retrain interval of 10. -/
def freshProfilerState : ProfilerState :=
  { model := some badProfiler
    observations := []
    observation_count := 0
    retrain_interval := 10 }

/-! ### Theorems -/

/-- Claim C1: `should_escalate(risk_score, anomaly_score,
has_malicious_indicator)` returns true exactly when `risk_score > 70` or
`anomaly_score > 70` or the malicious indicator is set; in particular
(71, 0, False) escalates, (69, 69, False) does not, and (0, 0, True)
escalates. -/
theorem claim_C1_should_escalate :
    (∀ (r a : ℚ) (m : Bool),
      (should_escalate r a m = true ↔ (70 < r ∨ 70 < a ∨ m = true))) ∧
    should_escalate 71 0 false = true ∧
    should_escalate 69 69 false = false ∧
    should_escalate 0 0 true = true := by
  refine ⟨?_, ?_, ?_, ?_⟩
  · intro r a m
    simp [should_escalate, or_assoc]
  · norm_num [should_escalate]
  · norm_num [should_escalate]
  · simp [should_escalate]

/-- Witness for claim C1 at the concrete escalating input (71, 0, False). -/
theorem claim_C1_should_escalate_witness :
    should_escalate 71 0 false = true :=
  (claim_C1_should_escalate.1 71 0 false).mpr (Or.inl (by norm_num))

/-- Claim C4: for every (stage, confidence) pair among the 12 canonical
stages and the 3 confidence levels, `determine_severity` follows the fixed
decision table (late tier → Critical when High/Medium else High; mid tier
→ High when High else Medium; early tier → Medium when High else Low). -/
theorem claim_C4_determine_severity :
    ∀ stage ∈ ATTACK_STAGE_ORDER,
      ∀ conf ∈ (["High", "Medium", "Low"] : List String),
        determine_severity stage conf = severity_table_spec stage conf := by
  decide

/-- Witness for claim C4 at the concrete pair (Impact, High). -/
theorem claim_C4_determine_severity_witness :
    determine_severity "Impact" "High" = severity_table_spec "Impact" "High" :=
  claim_C4_determine_severity "Impact" (by decide) "High" (by decide)

set_option maxRecDepth 8192 in
/-- Claim C9: `generate_defense_actions` with severity Critical,
techniques ["T1078"] and no anomalies contains the host-isolation,
password-reset and auth-log-audit actions; with severity Low, no
techniques and no anomalies it is exactly the two-element fallback set,
compared order-independently. -/
theorem claim_C9_defense_action_examples :
    ("Isolate the affected host from the network immediately." ∈
        generate_defense_actions "Critical" ["T1078"] none) ∧
    ("Force password reset for all affected users." ∈
        generate_defense_actions "Critical" ["T1078"] none) ∧
    ("Audit authentication logs for unauthorized access." ∈
        generate_defense_actions "Critical" ["T1078"] none) ∧
    (generate_defense_actions "Low" [] none).Perm
      ["Conduct a manual investigation of the event context.",
       "Document findings in the incident management system."] := by
  have h1 : generate_defense_actions "Critical" ["T1078"] none =
      ["Isolate the affected host from the network immediately.",
       "Initiate full incident response protocol.",
       "Block all outbound traffic from the source IP.",
       "Force password reset for all affected users.",
       "Audit authentication logs for unauthorized access."] := by decide
  have h2 : generate_defense_actions "Low" [] none =
      ["Conduct a manual investigation of the event context.",
       "Document findings in the incident management system."] := by decide
  rw [h1, h2]
  refine ⟨by simp, by simp, by simp, List.Perm.refl _⟩

set_option maxRecDepth 8192 in
/-- Claim C2 counterexample: `create_case` stores a 201-character incident
summary unchanged, so the stored summary is not truncated to at most 200
characters. -/
theorem claim_C2_counterexample :
    ((create_case [] ⟨some longSummary, none, none, none, none⟩ 1234
        "2024-01-01 00:00:00").1.incident_summary.length = 201) ∧
    (200 < (create_case [] ⟨some longSummary, none, none, none, none⟩ 1234
        "2024-01-01 00:00:00").1.incident_summary.length) := by
  exact ⟨by decide, by decide⟩

/-- Claim C2 as amended: every case record produced by `create_case` has
status "Open" at creation, and its incident summary is stored exactly as
provided (default "N/A" when absent), with no truncation. -/
theorem claim_C2_case_creation :
    ∀ (cases : List Case) (data : CaseInput) (rid : Nat) (now : String),
      (create_case cases data rid now).1.status = "Open" ∧
      (create_case cases data rid now).1.incident_summary =
        data.incident_summary.getD "N/A" := by
  intro cases data rid now
  exact ⟨rfl, rfl⟩

/-- Claim C3 (code bug): when `random.randint(1000, 9999)` draws the same
value (here 1000) in two successive `create_case` calls, the persisted
store ends up with two cases carrying the same case id — the code performs
no collision check, so case ids are not unique within the store. -/
theorem claim_C3_case_id_collision :
    ((create_case
        ((create_case [] ⟨none, none, none, none, none⟩ 1000 "t1").2)
        ⟨none, none, none, none, none⟩ 1000 "t2").2.map Case.case_id =
      ["CASE-1000", "CASE-1000"]) ∧
    (((create_case
        ((create_case [] ⟨none, none, none, none, none⟩ 1000 "t1").2)
        ⟨none, none, none, none, none⟩ 1000 "t2").2.map
          Case.case_id).dedup.length = 1) := by
  constructor
  · rfl
  · rfl

/-- Helper: for a non-empty score list, the confidence level returned by
`calculate_confidence` is determined by the arithmetic mean through the
two fixed thresholds. -/
theorem calculate_confidence_level_eq (scores : List ℚ) (h : scores ≠ []) :
    (calculate_confidence scores).1 =
      (if scores.sum / (scores.length : ℚ) > 65/100 then "High"
       else if scores.sum / (scores.length : ℚ) > 45/100 then "Medium"
       else "Low") := by
  obtain ⟨a, t, rfl⟩ := List.exists_cons_of_ne_nil h
  simp only [calculate_confidence, List.isEmpty_cons, Bool.false_eq_true,
    if_false]
  split_ifs <;> rfl

/-- Claim C7: `calculate_confidence` returns Low with the
no-relevant-context reason on empty input; otherwise the level is High
when the mean exceeds 0.65, Medium when it exceeds 0.45 and Low otherwise,
and the level is monotone non-decreasing in the mean. -/
theorem claim_C7_calculate_confidence :
    (calculate_confidence [] =
      ("Low", "No relevant context found in knowledge base.")) ∧
    (∀ scores : List ℚ, scores ≠ [] →
      (calculate_confidence scores).1 =
        (if scores.sum / (scores.length : ℚ) > 65/100 then "High"
         else if scores.sum / (scores.length : ℚ) > 45/100 then "Medium"
         else "Low")) ∧
    (∀ s1 s2 : List ℚ, s1 ≠ [] → s2 ≠ [] →
      s1.sum / (s1.length : ℚ) ≤ s2.sum / (s2.length : ℚ) →
      confRank (calculate_confidence s1).1 ≤
        confRank (calculate_confidence s2).1) := by
  refine ⟨rfl, calculate_confidence_level_eq, ?_⟩
  intro s1 s2 h1 h2 hle
  rw [calculate_confidence_level_eq s1 h1, calculate_confidence_level_eq s2 h2]
  by_cases hx1 : s1.sum / (s1.length : ℚ) > 65/100
  · have hy1 : s2.sum / (s2.length : ℚ) > 65/100 := lt_of_lt_of_le hx1 hle
    simp [hx1, hy1]
  · by_cases hx2 : s1.sum / (s1.length : ℚ) > 45/100
    · by_cases hy1 : s2.sum / (s2.length : ℚ) > 65/100
      · simp [hx1, hx2, hy1, confRank]
      · have hy2 : s2.sum / (s2.length : ℚ) > 45/100 := lt_of_lt_of_le hx2 hle
        simp [hx1, hx2, hy1, hy2, confRank]
    · by_cases hy1 : s2.sum / (s2.length : ℚ) > 65/100
      · simp [hx1, hx2, hy1, confRank]
      · by_cases hy2 : s2.sum / (s2.length : ℚ) > 45/100
        · simp [hx1, hx2, hy1, hy2, confRank]
        · simp [hx1, hx2, hy1, hy2, confRank]

/-- Witness for claim C7's monotonicity at the concrete score lists [1/2]
and [1]. -/
theorem claim_C7_calculate_confidence_witness :
    confRank (calculate_confidence [1/2]).1 ≤
      confRank (calculate_confidence [1]).1 :=
  claim_C7_calculate_confidence.2.2 [1/2] [1] (List.cons_ne_nil _ _)
    (List.cons_ne_nil _ _) (by norm_num)

/-- Helper: `addAction` never yields the empty list. -/
theorem addAction_ne_nil (acts : List String) (a : String) :
    addAction acts a ≠ [] := by
  cases acts with
  | nil => simp [addAction]
  | cons x xs =>
    unfold addAction
    split <;> simp

/-- Helper: `addAction` preserves freedom from duplicates. -/
theorem addAction_nodup (acts : List String) (a : String)
    (h : acts.Nodup) : (addAction acts a).Nodup := by
  unfold addAction
  split
  · exact h
  · rename_i hc
    have ha : a ∉ acts := by simpa using hc
    simp [List.nodup_append, h, ha]

/-- Helper: a property preserved by each step of a left fold holds of the
fold's result. -/
theorem foldl_preserves {α β : Type} (P : β → Prop) (f : β → α → β)
    (hf : ∀ b x, P b → P (f b x)) :
    ∀ (l : List α) (b : β), P b → P (l.foldl f b) := by
  intro l
  induction l with
  | nil => intro b hb; exact hb
  | cons x xs ih => intro b hb; exact ih _ (hf _ _ hb)

/-- Helper: the severity rules preserve freedom from duplicates. -/
theorem severityActions_nodup (severity : String) (acts : List String)
    (h : acts.Nodup) : (severityActions severity acts).Nodup := by
  unfold severityActions
  split_ifs <;> try exact h
  all_goals repeat apply addAction_nodup
  all_goals exact h

/-- Helper: the technique rules preserve freedom from duplicates. -/
theorem techActions_nodup (acts : List String) (tech : String)
    (h : acts.Nodup) : (techActions acts tech).Nodup := by
  unfold techActions
  split_ifs <;> repeat first | assumption | apply addAction_nodup

/-- Helper: the anomaly rules preserve freedom from duplicates. -/
theorem anomalyActions_nodup (acts : List String) (anomaly : String)
    (h : acts.Nodup) : (anomalyActions acts anomaly).Nodup := by
  simp only [anomalyActions]
  split_ifs <;> repeat first | assumption | apply addAction_nodup

/-- Helper: the pre-fallback accumulated action list has no duplicates. -/
theorem preActions_nodup (severity : String) (techniques : List String)
    (anomalies : Option (List String)) :
    (preActions severity techniques anomalies).Nodup := by
  unfold preActions
  have h1 : (severityActions severity []).Nodup :=
    severityActions_nodup severity [] List.nodup_nil
  have h2 : (techniques.foldl techActions (severityActions severity [])).Nodup :=
    foldl_preserves List.Nodup techActions
      (fun b x hb => techActions_nodup b x hb) techniques _ h1
  cases anomalies with
  | none => exact h2
  | some l =>
    by_cases hl : l.isEmpty
    · simp [hl, h2]
    · simp only [hl, Bool.false_eq_true, if_false]
      exact foldl_preserves List.Nodup anomalyActions
        (fun b x hb => anomalyActions_nodup b x hb) l _ h2

/-- Claim C10: for every severity string, technique list and optional
anomaly list, `generate_defense_actions` returns a non-empty list of
actions with no duplicates. -/
theorem claim_C10_defense_actions_invariant :
    ∀ (severity : String) (techniques : List String)
      (anomalies : Option (List String)),
      generate_defense_actions severity techniques anomalies ≠ [] ∧
      (generate_defense_actions severity techniques anomalies).Nodup := by
  intro severity techniques anomalies
  have hpre := preActions_nodup severity techniques anomalies
  unfold generate_defense_actions
  split
  · exact ⟨addAction_ne_nil _ _,
      addAction_nodup _ _ (addAction_nodup _ _ hpre)⟩
  · rename_i hne
    refine ⟨?_, hpre⟩
    intro hnil
    simp [hnil] at hne

/-- Witness for claim C10 at the concrete input (Low, [], None). -/
theorem claim_C10_defense_actions_invariant_witness :
    generate_defense_actions "Low" [] none ≠ [] ∧
      (generate_defense_actions "Low" [] none).Nodup :=
  claim_C10_defense_actions_invariant "Low" [] none

/-- Helper: rounding to one decimal keeps a value of [0, 100] inside
[0, 100]. -/
theorem round1_mem_Icc (x : ℚ) (h0 : 0 ≤ x) (h1 : x ≤ 100) :
    0 ≤ round1 x ∧ round1 x ≤ 100 := by
  have hr : round (10 * x) = ⌊10 * x + 1/2⌋ := round_eq _
  have hlo : (0 : ℤ) ≤ ⌊10 * x + 1/2⌋ := by
    apply Int.le_floor.mpr
    push_cast
    linarith
  have hup : (⌊10 * x + 1/2⌋ : ℚ) ≤ 10 * x + 1/2 := Int.floor_le _
  have hup2 : (⌊10 * x + 1/2⌋ : ℚ) < 1001 := lt_of_le_of_lt hup (by linarith)
  have hup3 : ⌊10 * x + 1/2⌋ < (1001 : ℤ) := by exact_mod_cast hup2
  have hup4 : ⌊10 * x + 1/2⌋ ≤ (1000 : ℤ) := by omega
  unfold round1
  rw [hr]
  constructor
  · apply div_nonneg _ (by norm_num : (0:ℚ) ≤ 10)
    exact_mod_cast hlo
  · rw [div_le_iff₀ (by norm_num : (0:ℚ) < 10)]
    calc (⌊10 * x + 1/2⌋ : ℚ) ≤ (1000 : ℚ) := by exact_mod_cast hup4
      _ = 100 * 10 := by norm_num

/-- Helper: the clamp `max 0 (min 100 s)` lands in [0, 100]. -/
theorem clamp_mem_Icc (s : ℚ) : 0 ≤ max 0 (min 100 s) ∧
    max 0 (min 100 s) ≤ 100 :=
  ⟨le_max_left 0 _, max_le (by norm_num) (min_le_left 100 s)⟩

/-- Claim C5: for every assessment, the risk score from `predict` and the
anomaly score from `update_and_score` lie in [0, 100] with one decimal
place; a missing estimator yields the fixed defaults 50.0 and 25.0, and a
raised prediction or scoring exception is caught and yields the same
defaults — neither operation propagates a failure. -/
theorem claim_C5_score_bounds :
    ∀ (mo : Option RiskModel) (st : ProfilerState) (a b : Analysis),
      (0 ≤ predict mo a ∧ predict mo a ≤ 100 ∧ isOneDecimal (predict mo a)) ∧
      (0 ≤ (update_and_score st b).1 ∧ (update_and_score st b).1 ≤ 100 ∧
        isOneDecimal ((update_and_score st b).1)) ∧
      (predict none a = 50) ∧
      ((update_and_score { st with model := none } b).1 = 25) ∧
      (∀ (f : RiskModel) (e : String),
        f (extract_features a) = Except.error e → predict (some f) a = 50) ∧
      (∀ (m : ProfilerModel) (e : String), st.model = some m →
        m.decision (extract_behavior_features b) = Except.error e →
        (update_and_score st b).1 = 25) := by
  intro mo st a b
  refine ⟨?_, ?_, rfl, rfl, ?_, ?_⟩
  · cases mo with
    | none =>
      refine ⟨by norm_num [predict], by norm_num [predict], 500, ?_⟩
      norm_num [predict]
    | some m =>
      cases hm : m (extract_features a) with
      | error e =>
        refine ⟨by simp [predict, hm], by norm_num [predict, hm], 500, ?_⟩
        simp [predict, hm]
        norm_num
      | ok s =>
        have hc := clamp_mem_Icc s
        have hb := round1_mem_Icc _ hc.1 hc.2
        refine ⟨by simpa [predict, hm] using hb.1,
          by simpa [predict, hm] using hb.2,
          round (10 * max 0 (min 100 s)), ?_⟩
        simp [predict, hm, round1]
  · cases hm : st.model with
    | none =>
      refine ⟨by simp [update_and_score, hm],
        by norm_num [update_and_score, hm], 250, ?_⟩
      simp [update_and_score, hm]
      norm_num
    | some m =>
      cases hd : m.decision (extract_behavior_features b) with
      | error e =>
        refine ⟨by simp [update_and_score, hm, hd],
          by norm_num [update_and_score, hm, hd], 250, ?_⟩
        simp [update_and_score, hm, hd]
        norm_num
      | ok raw =>
        have hc := clamp_mem_Icc (50 - raw * 50)
        have hb := round1_mem_Icc _ hc.1 hc.2
        refine ⟨by simpa [update_and_score, hm, hd] using hb.1,
          by simpa [update_and_score, hm, hd] using hb.2,
          round (10 * max 0 (min 100 (50 - raw * 50))), ?_⟩
        simp [update_and_score, hm, hd, round1]
  · intro f e hf
    simp [predict, hf]
  · intro m e hm hd
    simp [update_and_score, hm, hd]

/-- Witness for claim C5 at a concrete always-raising estimator and an
empty analysis: both fall back to their fixed defaults. -/
theorem claim_C5_score_bounds_witness :
    predict (some badRisk) emptyAnalysis = 50 ∧
      (update_and_score freshProfilerState emptyAnalysis).1 = 25 := by
  have h := claim_C5_score_bounds (some badRisk) freshProfilerState
    emptyAnalysis emptyAnalysis
  exact ⟨h.2.2.2.2.1 badRisk "prediction failed" rfl,
    h.2.2.2.2.2 badProfiler "scoring failed" rfl rfl⟩

/-- Helper: a left fold of `max` either lies in the list or equals the
seed. -/
theorem foldl_max_mem (l : List Nat) :
    ∀ a : Nat, l.foldl max a ∈ l ∨ l.foldl max a = a := by
  induction l with
  | nil => intro a; right; rfl
  | cons x xs ih =>
    intro a
    rcases ih (max a x) with h | h
    · left; exact List.mem_cons_of_mem _ h
    · rcases max_choice a x with h2 | h2
      · right; rw [List.foldl_cons, h, h2]
      · left; rw [List.foldl_cons, h, h2]; exact List.mem_cons_self x xs

/-- Helper: the seed is bounded by the `max` fold. -/
theorem self_le_foldl_max (l : List Nat) : ∀ a : Nat, a ≤ l.foldl max a := by
  induction l with
  | nil => intro a; exact le_refl a
  | cons y ys ih => intro a; exact le_trans (le_max_left a y) (ih (max a y))

/-- Helper: every member of a list is bounded by the `max` fold. -/
theorem le_foldl_max (l : List Nat) :
    ∀ (a x : Nat), x ∈ l → x ≤ l.foldl max a := by
  induction l with
  | nil => intro a x hx; cases hx
  | cons y ys ih =>
    intro a x hx
    rcases List.mem_cons.mp hx with rfl | h
    · calc x ≤ max a x := le_max_right a x
        _ ≤ ys.foldl max (max a x) := self_le_foldl_max ys (max a x)
    · exact ih (max a y) x h

/-- Helper: on a non-empty list of naturals, the `max` fold from 0 (which
is Python's `max(list)`) is attained by a member. -/
theorem foldl_max_mem_of_ne_nil (l : List Nat) (h : l ≠ []) :
    l.foldl max 0 ∈ l := by
  rcases foldl_max_mem l 0 with hm | h0
  · exact hm
  · cases l with
    | nil => exact absurd rfl h
    | cons y ys =>
      have hy : y ≤ (y :: ys).foldl max 0 :=
        le_foldl_max _ 0 y (List.mem_cons_self y ys)
      rw [h0] at hy
      have hy0 : y = 0 := Nat.le_zero.mp hy
      rw [h0]
      exact List.mem_cons.mpr (Or.inl hy0.symm)

/-- Helper: membership in `reachedIndices` is exactly being an in-range
stage index whose stage some technique reaches. -/
theorem mem_reachedIndices (techs : List String) (i : Nat) :
    i ∈ reachedIndices techs ↔
      i < ATTACK_STAGE_ORDER.length ∧
      stageReached techs (ATTACK_STAGE_ORDER.getD i "") = true := by
  simp [reachedIndices, List.mem_filter, List.mem_range]

/-- Helper: the canonical stage list has 12 entries. -/
theorem stage_order_length : ATTACK_STAGE_ORDER.length = 12 := rfl

/-- Helper: the flag stored at index `j` of a stage-indexed association
list built over the canonical order. -/
theorem timeline_getD (f : String → Bool) (j : Nat)
    (h : j < ATTACK_STAGE_ORDER.length) :
    ((ATTACK_STAGE_ORDER.map (fun s => (s, f s))).getD j ("", false)).2 =
      f (ATTACK_STAGE_ORDER.getD j "") := by
  rw [List.getD_eq_getElem?_getD, List.getElem?_map,
    List.getElem?_eq_getElem h]
  rw [List.getD_eq_getElem?_getD, List.getElem?_eq_getElem h]
  rfl

/-- Helper: forcing a stage to true in the raw timeline yields the mapped
association list with the pointwise-forced flag function. -/
theorem forceStage_rawTimeline (techs : List String) (s : String) :
    forceStage (rawTimeline techs) s =
      ATTACK_STAGE_ORDER.map
        (fun st => (st, if st = s then true else stageReached techs st)) := by
  unfold forceStage rawTimeline
  rw [List.map_map]
  apply List.map_congr_left
  intro st _
  by_cases h : st = s <;> simp [Function.comp, h]

/-- Helper: an in-range `getD` of the canonical stage list is a member. -/
theorem stage_getD_mem (j : Nat) (h : j < ATTACK_STAGE_ORDER.length) :
    ATTACK_STAGE_ORDER.getD j "" ∈ ATTACK_STAGE_ORDER := by
  rw [List.getD_eq_getElem?_getD, List.getElem?_eq_getElem h]
  exact List.getElem_mem h

/-- Helper: index 0 is the only index of "Initial Access" in the canonical
stage list. -/
theorem initial_access_iff :
    ∀ j < 12, ((ATTACK_STAGE_ORDER.getD j "" = "Initial Access") ↔ j = 0) := by
  decide

/-- Helper: `analyze_attack_progression` in the branch where no technique
reached any stage. -/
theorem analyze_eq_of_empty (techs : List String)
    (h : reachedIndices techs = []) :
    analyze_attack_progression techs =
      (forceStage (rawTimeline techs) (ATTACK_STAGE_ORDER.getD 0 ""),
       ATTACK_STAGE_ORDER.getD 0 "", ATTACK_STAGE_ORDER.getD 1 "") := by
  have he : (reachedIndices techs).isEmpty = true := by simp [h]
  simp [analyze_attack_progression, he, stage_order_length]

/-- Helper: `analyze_attack_progression` in the branch where some stage
was reached. -/
theorem analyze_eq_of_nonempty (techs : List String)
    (h : reachedIndices techs ≠ []) :
    analyze_attack_progression techs =
      (rawTimeline techs,
       ATTACK_STAGE_ORDER.getD ((reachedIndices techs).foldl max 0) "",
       if (reachedIndices techs).foldl max 0 + 1 < ATTACK_STAGE_ORDER.length
       then ATTACK_STAGE_ORDER.getD ((reachedIndices techs).foldl max 0 + 1) ""
       else "Attack Objective Achieved") := by
  have he : (reachedIndices techs).isEmpty = false := by
    simp [List.isEmpty_iff, h]
  simp [analyze_attack_progression, he]

/-- Claim C6: for every technique list, `analyze_attack_progression`
returns a current stage that is a canonical stage at some index k, whose
timeline flag is true and above every other true flag (so it is the
latest reached stage), a timeline with at least one true entry, a next
stage that is the canonical successor of the current stage (the sentinel
when current is last), and "Initial Access" as the forced current stage
when no technique maps to any stage. -/
theorem claim_C6_attack_progression (techs : List String) :
    ∃ k, k < ATTACK_STAGE_ORDER.length ∧
      (analyze_attack_progression techs).2.1 = ATTACK_STAGE_ORDER.getD k "" ∧
      (analyze_attack_progression techs).2.1 ∈ ATTACK_STAGE_ORDER ∧
      (((analyze_attack_progression techs).1.getD k ("", false)).2 = true) ∧
      (∀ j, j < ATTACK_STAGE_ORDER.length →
        (((analyze_attack_progression techs).1.getD j ("", false)).2 = true) →
        j ≤ k) ∧
      ((analyze_attack_progression techs).1.any Prod.snd = true) ∧
      ((analyze_attack_progression techs).2.2 =
        if k + 1 < ATTACK_STAGE_ORDER.length then
          ATTACK_STAGE_ORDER.getD (k + 1) ""
        else "Attack Objective Achieved") ∧
      (reachedIndices techs = [] →
        (analyze_attack_progression techs).2.1 = "Initial Access") := by
  by_cases hidx : reachedIndices techs = []
  · rw [analyze_eq_of_empty techs hidx]
    refine ⟨0, by decide, rfl, stage_getD_mem 0 (by decide), ?_, ?_, ?_,
      by norm_num [stage_order_length], fun _ => rfl⟩
    · rw [forceStage_rawTimeline, timeline_getD _ 0 (by decide)]
      simp
    · intro j hj hf
      rw [forceStage_rawTimeline, timeline_getD _ j hj] at hf
      by_cases hIA : ATTACK_STAGE_ORDER.getD j "" = ATTACK_STAGE_ORDER.getD 0 ""
      · have h12 : j < 12 := by rw [← stage_order_length]; exact hj
        exact Nat.le_of_eq ((initial_access_iff j h12).mp hIA)
      · rw [if_neg hIA] at hf
        exact absurd ((mem_reachedIndices techs j).mpr ⟨hj, hf⟩)
          (by simp [hidx])
    · rw [forceStage_rawTimeline]
      apply List.any_eq_true.mpr
      refine ⟨("Initial Access", true), ?_, rfl⟩
      apply List.mem_map.mpr
      exact ⟨"Initial Access", by decide,
        by rw [if_pos (show "Initial Access" = ATTACK_STAGE_ORDER.getD 0 ""
          from rfl)]⟩
  · have hkmem : (reachedIndices techs).foldl max 0 ∈ reachedIndices techs :=
      foldl_max_mem_of_ne_nil _ hidx
    obtain ⟨hk12, hflag⟩ := (mem_reachedIndices techs _).mp hkmem
    rw [analyze_eq_of_nonempty techs hidx]
    refine ⟨(reachedIndices techs).foldl max 0, hk12, rfl,
      stage_getD_mem _ hk12, ?_, ?_, ?_, rfl, fun h => absurd h hidx⟩
    · show ((rawTimeline techs).getD _ ("", false)).2 = true
      unfold rawTimeline
      rw [timeline_getD _ _ hk12]
      exact hflag
    · intro j hj hf
      unfold rawTimeline at hf
      rw [timeline_getD _ j hj] at hf
      exact le_foldl_max _ 0 j ((mem_reachedIndices techs j).mpr ⟨hj, hf⟩)
    · apply List.any_eq_true.mpr
      refine ⟨(ATTACK_STAGE_ORDER.getD ((reachedIndices techs).foldl max 0) "",
        stageReached techs
          (ATTACK_STAGE_ORDER.getD ((reachedIndices techs).foldl max 0) "")),
        ?_, hflag⟩
      unfold rawTimeline
      exact List.mem_map.mpr ⟨_, stage_getD_mem _ hk12, rfl⟩

/-- Witness for claim C6 at the empty technique list: the forced current
stage is "Initial Access" and the timeline still has a true entry. -/
theorem claim_C6_attack_progression_witness :
    (analyze_attack_progression []).2.1 = "Initial Access" ∧
      (analyze_attack_progression []).1.any Prod.snd = true := by
  obtain ⟨k, -, -, -, -, -, hany, -, hforce⟩ :=
    claim_C6_attack_progression []
  exact ⟨hforce (by decide), hany⟩

/-- Helper: a predicate holding of every value in an association list holds
of any successful lookup. -/
theorem lookup_pred {α β : Type} [BEq α] (P : β → Prop) :
    ∀ (l : List (α × β)), (∀ p ∈ l, P p.2) →
      ∀ (t : α) (b : β), l.lookup t = some b → P b := by
  intro l
  induction l with
  | nil => intro _ t b h; cases h
  | cons x xs ih =>
    intro hP t b h
    rcases x with ⟨k, v⟩
    by_cases hk : (t == k) = true
    · simp [List.lookup, hk] at h
      exact h ▸ hP (k, v) (List.mem_cons_self _ _)
    · simp [List.lookup, hk] at h
      exact ih (fun p hp => hP p (List.mem_cons_of_mem _ hp)) t b h

/-- Helper: every entry of the static stage table maps to a non-empty
stage list, so a successful lookup is never empty. -/
theorem stage_map_lookup_ne_nil (t : String) (ss : List String)
    (h : MITRE_STAGE_MAP.lookup t = some ss) : ss ≠ [] :=
  lookup_pred (fun b => b ≠ []) MITRE_STAGE_MAP (by decide) t ss h

/-- Claim C8: a technique id present in the static stage table is used
directly (no stripping); an id absent from the table that contains a
sub-technique dot falls back to the stages of its base id (the substring
before the dot). -/
theorem claim_C8_subtechnique_fallback :
    ∀ tech : String,
      (∀ ss, MITRE_STAGE_MAP.lookup tech = some ss →
        mappedStagesFor tech = ss) ∧
      (MITRE_STAGE_MAP.lookup tech = none →
        tech.data.contains '.' = true →
        mappedStagesFor tech =
          (MITRE_STAGE_MAP.lookup (baseTech tech)).getD []) := by
  intro tech
  constructor
  · intro ss hss
    have hne := stage_map_lookup_ne_nil tech ss hss
    have hemp : ss.isEmpty = false := by simp [List.isEmpty_iff, hne]
    simp only [mappedStagesFor]
    rw [hss]
    simp [hemp]
  · intro hnone hdot
    simp only [mappedStagesFor]
    rw [hnone]
    simp only [hdot, Option.getD_none, List.isEmpty_nil, Bool.true_and,
      if_true]

/-- Witness for claim C8: "T1003" is in the table and is used directly;
"T1486.001" is absent, so the stages of its base id "T1486" are used. -/
theorem claim_C8_subtechnique_fallback_witness :
    mappedStagesFor "T1003" =
      ["Credential Access", "Privilege Escalation"] ∧
    mappedStagesFor "T1486.001" = ["Impact"] := by
  constructor
  · exact (claim_C8_subtechnique_fallback "T1003").1
      ["Credential Access", "Privilege Escalation"] (by decide)
  · exact ((claim_C8_subtechnique_fallback "T1486.001").2
      (by decide) (by decide)).trans (by decide)

end Spec2Proof
